import Mathlib

/-!
Verification of the `FilePluginController` from
`src/controller/controller.ts` of tweakpane-plugin-file-import.

The controller is event-handling glue over a DOM view: it validates
candidate files against an optional extension allow-list, commits them to a
bound nullable `File` value, and synchronizes view state.  We embed the
controller's handlers as pure functions over an explicit state record; the
DOM mutations become record updates, `removeChild` on a non-child becomes an
`Except` error, and the `setTimeout` warning dismissal becomes an explicit
pending-timer list with wall-clock times in milliseconds.
-/

namespace TweakpaneFileImport

/-- A file as the controller sees it: only `name` is ever inspected. -/
structure File where
  name : String
deriving DecidableEq, Repr

/-- The construction-time configuration (`Config` in controller.ts).
`value` and `viewProps` live in the runtime state / host toolkit; `lineCount`
is passed through to the view and never used in control logic. -/
structure Config where
  lineCount : Nat
  filetypes : Option (List String)
deriving DecidableEq, Repr

/-- The last element of `name.split('.')` as a character list: the text
after the last `'.'`, or the whole name when no `'.'` occurs.  `acc` holds
the segment read since the last separator. -/
def lastDotSegment : List Char → List Char → List Char
  | [], acc => acc
  | c :: cs, acc => if c = '.' then lastDotSegment cs [] else lastDotSegment cs (acc ++ [c])

/-- `'.' + file.name.split('.').pop()?.toLowerCase()` from `isFileValid`
(controller.ts line 86).  JavaScript `split('.')` always yields a non-empty
array, so `pop()` returns its last element; on a dotless name that is the
whole name. -/
def fileExtensionOf (name : String) : String :=
  "." ++ String.mk ((lastDotSegment name.data []).map Char.toLower)

/-- `isFileValid` (controller.ts lines 84-93):
`!(filetypes && filetypes.length > 0 && !filetypes.includes(fileExtension) && fileExtension)`.
The `filetypes &&` truthiness test is the `Option` match; the trailing
`fileExtension` truthiness test is `!fileExtension.isEmpty`. -/
def isFileValid (cfg : Config) (file : File) : Bool :=
  let fileExtension := fileExtensionOf file.name
  !(match cfg.filetypes with
    | none => false
    | some filetypes =>
      decide (filetypes.length > 0) &&
        !(filetypes.contains fileExtension) && !fileExtension.isEmpty)

/-- The mutable view state the controller touches: the text element's
content and container membership, the file icon's container membership, the
warning element's `innerHTML` and `style.display`, the delete button's
`style.display`, the container's `style.border`, the input element's raw
`value`, and the dragging visual state. -/
structure ViewState where
  textContent : String
  textInContainer : Bool
  iconInContainer : Bool
  warningHTML : String
  warningDisplay : String
  deleteDisplay : String
  containerBorder : String
  inputValue : String
  dragging : Bool
deriving DecidableEq, Repr

/-- Controller runtime state: the bound nullable file value, the view, the
current wall-clock time in milliseconds, and the fire times of pending
`setTimeout` warning dismissals. -/
structure ControllerState where
  value : Option File
  view : ViewState
  now : Nat
  pendingDismissals : List Nat
deriving DecidableEq, Repr

/-- `showWarning` (controller.ts lines 74-82): show the fixed warning text
and schedule a dismissal 5000 ms from now.  Each call appends its own timer;
nothing is cancelled or de-duplicated. -/
def showWarning (s : ControllerState) : ControllerState :=
  { s with
    view := { s.view with
      warningDisplay := "block"
      warningHTML := "Unaccepted file type." }
    pendingDismissals := s.pendingDismissals ++ [s.now + 5000] }

/-- The callback body of the `setTimeout` in `showWarning` (controller.ts
lines 77-81): unconditionally clears the warning text and hides the
element, whatever the current state is. -/
def dismissWarning (s : ControllerState) : ControllerState :=
  { s with
    view := { s.view with warningHTML := "", warningDisplay := "none" } }

/-- `this.value.setRawValue(v)`: updates the bound value.  (The emitter then
notifies `handleValueChange`, modelled separately.) -/
def setRawValue (s : ControllerState) (v : Option File) : ControllerState :=
  { s with value := v }

/-- `this.view.changeDraggingState(b)`. -/
def changeDraggingState (s : ControllerState) (b : Bool) : ControllerState :=
  { s with view := { s.view with dragging := b } }

/-- `onFile` (controller.ts lines 59-72): the input's file list; if
non-empty, validate the first file, showing the warning on failure and
committing the file on success. -/
def onFile (cfg : Config) (files : List File) (s : ControllerState) :
    ControllerState :=
  match files with
  | [] => s
  | file :: _ =>
    if !isFileValid cfg file then showWarning s
    else setRawValue s (some file)

/-- A drop event as `onDrop` inspects it: whether it is a genuine
`DragEvent`, and its `dataTransfer.files` payload (`none` models a null
`dataTransfer`). -/
structure DropEvent where
  isDragEvent : Bool
  dataTransfer : Option (List File)
deriving DecidableEq, Repr

/-- `onDrop` (controller.ts lines 120-143): only for genuine drag events
with a `dataTransfer`; the value changes only when exactly one file was
dropped and it validates; `changeDraggingState(false)` always runs last. -/
def onDrop (cfg : Config) (ev : DropEvent) (s : ControllerState) :
    ControllerState :=
  let s1 :=
    if ev.isDragEvent then
      match ev.dataTransfer with
      | none => s
      | some files =>
        if files.length == 1 then
          match files.get? 0 with
          | none => s
          | some file =>
            if !isFileValid cfg file then showWarning s
            else setRawValue s (some file)
        else s
    else s
  changeDraggingState s1 false

/-- `onDeleteClick` (controller.ts lines 95-109): if a file is bound, clear
the value, reset the input's raw value, and clear the warning. -/
def onDeleteClick (s : ControllerState) : ControllerState :=
  match s.value with
  | none => s
  | some _ =>
    { s with
      value := none
      view := { s.view with
        inputValue := ""
        warningHTML := ""
        warningDisplay := "none" } }

/-- A DOM exception: `Node.removeChild` raises `NotFoundError` when the
argument is not a child of the node. -/
inductive DomError where
  | notFoundErr
deriving DecidableEq, Repr

/-- `handleValueChange` (controller.ts lines 145-186).  The non-null branch
guards `removeChild(fileIconEl)` with a `contains` check; the null branch
calls `removeChild(textEl)` unguarded, so it raises `NotFoundError` when the
text element is not currently a child of the container. -/
def handleValueChange (s : ControllerState) : Except DomError ControllerState :=
  match s.value with
  | some fileObj =>
    let v := s.view
    let v := { v with textContent := fileObj.name }
    let v := { v with textInContainer := true }
    let v := if v.iconInContainer then { v with iconInContainer := false } else v
    let v := { v with
      warningHTML := ""
      warningDisplay := "none"
      deleteDisplay := "block"
      containerBorder := "unset" }
    .ok { s with view := v }
  | none =>
    let v := s.view
    let v := { v with textContent := "" }
    let v := { v with iconInContainer := true }
    if v.textInContainer then
      let v := { v with
        textInContainer := false
        warningHTML := ""
        warningDisplay := "none"
        deleteDisplay := "none"
        containerBorder := "1px dashed #717070" }
      .ok { s with view := v }
    else
      .error .notFoundErr

/-- An event-listener registration: which view element and which DOM event. -/
structure Listener where
  target : String
  event : String
deriving DecidableEq, Repr

/-- The listeners the constructor adds (controller.ts lines 43-47). -/
def constructorAddedListeners : List Listener :=
  [⟨"input", "change"⟩, ⟨"element", "drop"⟩, ⟨"element", "dragover"⟩,
   ⟨"element", "dragleave"⟩, ⟨"deleteButton", "click"⟩]

/-- The listeners the `handleDispose` teardown removes (controller.ts lines
49-54). -/
def teardownRemovedListeners : List Listener :=
  [⟨"input", "change"⟩, ⟨"element", "drop"⟩, ⟨"element", "dragover"⟩,
   ⟨"element", "dragleave"⟩]

/-- Modelled from the spec (for comparison with the code): the rejection
condition claimed for `isFileValid` — the allow-list is non-empty, an
extension is extractable (the name contains a `'.'`), and the extracted
extension is not a member of the list. -/
def specRejects (filetypes : List String) (f : File) : Bool :=
  decide (filetypes.length > 0) && f.name.data.contains '.' &&
    !(filetypes.contains (fileExtensionOf f.name))

/-- A baseline view state: no file shown, icon in the container. -/
def initView : ViewState :=
  ⟨"", false, true, "", "none", "none", "1px dashed #717070", "", false⟩

/-- A baseline controller state with no file bound. -/
def initState : ControllerState := ⟨none, initView, 0, []⟩

/-- Demo state for the value-change sync: a file just committed, warning
still showing, view not yet synchronized. -/
def c4s : ControllerState :=
  { initState with
    value := some ⟨"a.png"⟩
    view := { initView with
      warningHTML := "Unaccepted file type."
      warningDisplay := "block" } }

/-- The state `handleValueChange` produces from `c4s`. -/
def c4out : ControllerState :=
  { initState with
    value := some ⟨"a.png"⟩
    view := ⟨"a.png", true, false, "", "none", "block", "unset", "", false⟩ }

/-- Demo state with a file bound and its filename displayed. -/
def c6s : ControllerState :=
  { initState with
    value := some ⟨"a.png"⟩
    view := ⟨"a.png", true, false, "", "none", "block", "unset", "a.png", false⟩ }

/-- Overlap scenario, step 1: a warning shown at time 0 (dismissal due at
5000). -/
def c8s1 : ControllerState := showWarning initState

/-- Overlap scenario, step 2: a second warning shown at time 3000
(dismissal due at 8000); the first timer is still pending. -/
def c8s2 : ControllerState := showWarning { c8s1 with now := 3000 }

/-- Overlap scenario, step 3: at time 5000 the first timer fires and runs
the dismissal callback, although the second warning's own dismissal is only
due at 8000. -/
def c8s3 : ControllerState := dismissWarning { c8s2 with now := 5000 }

/-- Demo state with a null value and the text element still a child of the
container. -/
def c10b : ControllerState :=
  { initState with view := { initView with textInContainer := true } }

/-! ## Helper lemmas -/

/-- The computed extension always starts with a dot, so, as a string, it is
never empty: the `&& fileExtension` truthiness guard in `isFileValid` is
vacuous. -/
theorem fileExtensionOf_isEmpty (name : String) :
    (fileExtensionOf name).isEmpty = false := by
  rw [Bool.eq_false_iff]
  intro h
  rw [String.isEmpty_iff] at h
  have h2 := congrArg String.data h
  simp [fileExtensionOf] at h2

/-- On a dot-free character list the split never resets, so the final
segment is the accumulator followed by the whole list. -/
theorem lastDotSegment_no_dot (l : List Char) (acc : List Char)
    (h : '.' ∉ l) : lastDotSegment l acc = acc ++ l := by
  induction l generalizing acc with
  | nil => simp [lastDotSegment]
  | cons c cs ih =>
    have hc : c ≠ '.' := fun hc => h (by simp [hc])
    have hcs : '.' ∉ cs := fun hm => h (by simp [hm])
    rw [lastDotSegment, if_neg hc, ih _ hcs]
    simp

/-- Characterization of rejection by `isFileValid`: the bound value of the
vacuous truthiness guard is discharged by `fileExtensionOf_isEmpty`. -/
theorem isFileValid_eq_false_iff (cfg : Config) (f : File) :
    isFileValid cfg f = false ↔
      ∃ l, cfg.filetypes = some l ∧ l ≠ [] ∧ fileExtensionOf f.name ∉ l := by
  obtain ⟨lc, ft⟩ := cfg
  cases ft with
  | none => simp [isFileValid]
  | some l =>
    simp [isFileValid, fileExtensionOf_isEmpty, List.length_pos]

/-! ## Claim theorems -/

/-- C1: the claimed characterization of `isFileValid` is false — the code
can reject a file whose name contains no dot at all, because the dotless
name itself (lowercased, dot-prefixed) is treated as the extension.  At the
allow-list `[".png"]` and the file named `readme`, `isFileValid` returns
false while the spec condition (which requires an extractable extension)
does not hold. -/
theorem c1_counterexample :
    ¬ (isFileValid ⟨1, some [".png"]⟩ ⟨"readme"⟩ = false ↔
        specRejects [".png"] ⟨"readme"⟩ = true) := by decide

/-- C1 (amended): `isFileValid f` is false iff a filetypes list is
configured, is non-empty, and the dot-prefixed lowercased last
dot-separated segment of the name (the whole lowercased name when the name
has no dot) is not a member; no extension-extractability condition exists,
the truthiness guard on the computed extension being vacuous. -/
theorem c1_amended_rejection_iff (cfg : Config) (f : File) :
    isFileValid cfg f = false ↔
      ∃ l, cfg.filetypes = some l ∧ l ≠ [] ∧ fileExtensionOf f.name ∉ l :=
  isFileValid_eq_false_iff cfg f

/-- C2: the claim that a dot-free file name is always accepted is false:
with allow-list `[".png"]`, the file named `readme` (no dot) is rejected. -/
theorem c2_counterexample :
    ('.' ∉ "readme".data) ∧
      isFileValid ⟨1, some [".png"]⟩ ⟨"readme"⟩ = false := by decide

/-- C2 (amended): a file whose name contains no dot is accepted iff every
configured allow-list is empty or contains the whole lowercased name
prefixed with a dot. -/
theorem c2_amended_dotless (cfg : Config) (f : File)
    (h : '.' ∉ f.name.data) :
    isFileValid cfg f = true ↔
      ∀ l, cfg.filetypes = some l →
        l = [] ∨ ("." ++ String.mk (f.name.data.map Char.toLower)) ∈ l := by
  have he : fileExtensionOf f.name =
      "." ++ String.mk (f.name.data.map Char.toLower) := by
    rw [fileExtensionOf, lastDotSegment_no_dot _ _ h]
    simp
  constructor
  · intro ht l hl
    by_contra hc
    push_neg at hc
    have hfalse : isFileValid cfg f = false :=
      (isFileValid_eq_false_iff cfg f).2
        ⟨l, hl, hc.1, by rw [he]; exact hc.2⟩
    rw [hfalse] at ht
    exact Bool.noConfusion ht
  · intro hall
    by_contra hf
    have hfalse : isFileValid cfg f = false := by
      cases hv : isFileValid cfg f with
      | false => rfl
      | true => exact absurd hv hf
    obtain ⟨l, hl, hne, hnm⟩ := (isFileValid_eq_false_iff cfg f).1 hfalse
    rcases hall l hl with h0 | hm
    · exact hne h0
    · rw [he] at hnm
      exact hnm hm

/-- C2 witness: the amended claim evaluated at the dot-free name `readme`
with allow-list `[".readme"]`, where the file is accepted. -/
theorem c2_amended_dotless_witness :
    ('.' ∉ "readme".data) ∧
      (isFileValid ⟨1, some [".readme"]⟩ ⟨"readme"⟩ = true ↔
        ∀ l, (some [".readme"] : Option (List String)) = some l →
          l = [] ∨ ("." ++ String.mk ("readme".data.map Char.toLower)) ∈ l) :=
  ⟨by decide, c2_amended_dotless ⟨1, some [".readme"]⟩ ⟨"readme"⟩ (by decide)⟩

/-- C3: the claim that the teardown removes every DOM listener the
constructor added is false: the click listener on the delete button is
added but absent from the teardown list. -/
theorem c3_counterexample :
    (⟨"deleteButton", "click"⟩ : Listener) ∈ constructorAddedListeners ∧
      (⟨"deleteButton", "click"⟩ : Listener) ∉ teardownRemovedListeners := by
  decide

/-- C3 (amended): the teardown removes the change, drop, dragover and
dragleave listeners, each of which the constructor added; the only added
DOM listener it omits is the click listener on the delete button (besides
the bound-value change subscription, which is stated to be excluded). -/
theorem c3_amended_teardown :
    (∀ l ∈ teardownRemovedListeners, l ∈ constructorAddedListeners) ∧
    (∀ l ∈ constructorAddedListeners,
        l ∈ teardownRemovedListeners ∨ l = ⟨"deleteButton", "click"⟩) ∧
    (⟨"deleteButton", "click"⟩ : Listener) ∉ teardownRemovedListeners := by
  decide

/-- C4: whenever `handleValueChange` completes normally, the resulting view
matches the value exactly: for a non-null value the filename is displayed,
the text element is in the container, the icon is removed, the warning is
cleared and hidden, the delete button is shown and the border is unset; for
a null value the text is cleared and removed, the icon is shown, the
warning is cleared and hidden, the delete button is hidden and the border
is the fixed dashed style. -/
theorem c4_handleValueChange_sync (s s' : ControllerState)
    (h : handleValueChange s = Except.ok s') :
    (∀ f, s.value = some f →
      s'.view.textContent = f.name ∧ s'.view.textInContainer = true ∧
      s'.view.iconInContainer = false ∧ s'.view.warningHTML = "" ∧
      s'.view.warningDisplay = "none" ∧ s'.view.deleteDisplay = "block" ∧
      s'.view.containerBorder = "unset") ∧
    (s.value = none →
      s'.view.textContent = "" ∧ s'.view.iconInContainer = true ∧
      s'.view.textInContainer = false ∧ s'.view.warningHTML = "" ∧
      s'.view.warningDisplay = "none" ∧ s'.view.deleteDisplay = "none" ∧
      s'.view.containerBorder = "1px dashed #717070") := by
  cases hv : s.value with
  | some f0 =>
    refine ⟨?_, ?_⟩
    · intro f hf
      injection hf with hf
      subst hf
      simp only [handleValueChange, hv] at h
      cases hic : s.view.iconInContainer <;> simp [hic] at h <;>
        subst h <;> simp
    · intro hn
      exact Option.noConfusion hn
  | none =>
    refine ⟨?_, ?_⟩
    · intro f hf
      exact Option.noConfusion hf
    · intro _
      simp only [handleValueChange, hv] at h
      cases htc : s.view.textInContainer
      · simp [htc] at h
      · simp [htc] at h
        subst h
        simp

/-- C4 witness: the sync theorem applied at a concrete state holding a file
named `a.png` with a stale warning showing. -/
theorem c4_handleValueChange_sync_witness :
    handleValueChange c4s = Except.ok c4out ∧
      (c4out.view.textContent = "a.png" ∧
        c4out.view.textInContainer = true ∧
        c4out.view.iconInContainer = false ∧ c4out.view.warningHTML = "" ∧
        c4out.view.warningDisplay = "none" ∧
        c4out.view.deleteDisplay = "block" ∧
        c4out.view.containerBorder = "unset") :=
  ⟨rfl, (c4_handleValueChange_sync c4s c4out rfl).1 ⟨"a.png"⟩ rfl⟩

/-- C5: for a file selection or a single-file drop, an invalid file shows
the warning and leaves the bound value unchanged, while a valid file is
committed to the bound value. -/
theorem c5_validate_then_commit (cfg : Config) (f : File) (rest : List File)
    (s : ControllerState) :
    (isFileValid cfg f = false →
      (onFile cfg (f :: rest) s).value = s.value ∧
      (onFile cfg (f :: rest) s).view.warningHTML = "Unaccepted file type." ∧
      (onFile cfg (f :: rest) s).view.warningDisplay = "block" ∧
      (onDrop cfg ⟨true, some [f]⟩ s).value = s.value ∧
      (onDrop cfg ⟨true, some [f]⟩ s).view.warningHTML =
        "Unaccepted file type." ∧
      (onDrop cfg ⟨true, some [f]⟩ s).view.warningDisplay = "block") ∧
    (isFileValid cfg f = true →
      (onFile cfg (f :: rest) s).value = some f ∧
      (onDrop cfg ⟨true, some [f]⟩ s).value = some f) := by
  constructor <;> intro hv <;>
    simp [onFile, onDrop, showWarning, setRawValue, changeDraggingState, hv]

/-- C5 witness: with allow-list `[".png"]`, selecting or dropping
`photo.jpg` warns and leaves the value untouched, while `photo.png` is
committed. -/
theorem c5_validate_then_commit_witness :
    (isFileValid ⟨1, some [".png"]⟩ ⟨"photo.jpg"⟩ = false ∧
      ((onFile ⟨1, some [".png"]⟩ [⟨"photo.jpg"⟩] initState).value =
          initState.value ∧
        (onFile ⟨1, some [".png"]⟩ [⟨"photo.jpg"⟩]
            initState).view.warningHTML = "Unaccepted file type." ∧
        (onFile ⟨1, some [".png"]⟩ [⟨"photo.jpg"⟩]
            initState).view.warningDisplay = "block" ∧
        (onDrop ⟨1, some [".png"]⟩ ⟨true, some [⟨"photo.jpg"⟩]⟩
            initState).value = initState.value ∧
        (onDrop ⟨1, some [".png"]⟩ ⟨true, some [⟨"photo.jpg"⟩]⟩
            initState).view.warningHTML = "Unaccepted file type." ∧
        (onDrop ⟨1, some [".png"]⟩ ⟨true, some [⟨"photo.jpg"⟩]⟩
            initState).view.warningDisplay = "block")) ∧
    (isFileValid ⟨1, some [".png"]⟩ ⟨"photo.png"⟩ = true ∧
      ((onFile ⟨1, some [".png"]⟩ [⟨"photo.png"⟩] initState).value =
          some ⟨"photo.png"⟩ ∧
        (onDrop ⟨1, some [".png"]⟩ ⟨true, some [⟨"photo.png"⟩]⟩
            initState).value = some ⟨"photo.png"⟩)) :=
  ⟨⟨by decide,
    (c5_validate_then_commit ⟨1, some [".png"]⟩ ⟨"photo.jpg"⟩ []
        initState).1 (by decide)⟩,
   ⟨by decide,
    (c5_validate_then_commit ⟨1, some [".png"]⟩ ⟨"photo.png"⟩ []
        initState).2 (by decide)⟩⟩

/-- C6: when a file is bound, the delete click clears the bound value,
resets the raw input value and clears and hides the warning. -/
theorem c6_delete_clears (s : ControllerState) (f : File)
    (h : s.value = some f) :
    (onDeleteClick s).value = none ∧
    (onDeleteClick s).view.inputValue = "" ∧
    (onDeleteClick s).view.warningHTML = "" ∧
    (onDeleteClick s).view.warningDisplay = "none" := by
  simp [onDeleteClick, h]

/-- C6 witness: the delete-click theorem applied at a state holding the
file `a.png`. -/
theorem c6_delete_clears_witness :
    c6s.value = some ⟨"a.png"⟩ ∧
      ((onDeleteClick c6s).value = none ∧
        (onDeleteClick c6s).view.inputValue = "" ∧
        (onDeleteClick c6s).view.warningHTML = "" ∧
        (onDeleteClick c6s).view.warningDisplay = "none") :=
  ⟨rfl, c6_delete_clears c6s ⟨"a.png"⟩ rfl⟩

/-- C7: a drop whose payload does not hold exactly one file leaves the
bound value unchanged and still resets the dragging state, and a change
event with an empty file list is a complete no-op. -/
theorem c7_non_single_noop (cfg : Config) (files : List File)
    (s : ControllerState) (h : files.length ≠ 1) :
    (onDrop cfg ⟨true, some files⟩ s).value = s.value ∧
    (onDrop cfg ⟨true, some files⟩ s).view.dragging = false ∧
    onFile cfg [] s = s := by
  have hb : (files.length == 1) = false := by simpa using h
  simp [onDrop, hb, changeDraggingState, onFile]

/-- C7 witness: dropping two files with allow-list `[".png"]` changes
nothing but the dragging flag. -/
theorem c7_non_single_noop_witness :
    ([(⟨"a.png"⟩ : File), ⟨"b.png"⟩].length ≠ 1) ∧
      ((onDrop ⟨1, some [".png"]⟩
          ⟨true, some [⟨"a.png"⟩, ⟨"b.png"⟩]⟩ initState).value =
          initState.value ∧
        (onDrop ⟨1, some [".png"]⟩
            ⟨true, some [⟨"a.png"⟩, ⟨"b.png"⟩]⟩ initState).view.dragging =
          false ∧
        onFile ⟨1, some [".png"]⟩ [] initState = initState) :=
  ⟨by decide,
   c7_non_single_noop ⟨1, some [".png"]⟩ [⟨"a.png"⟩, ⟨"b.png"⟩] initState
     (by decide)⟩

/-- C8: every `showWarning` call sets the fixed warning text, shows the
element and appends its own dismissal timer due 5000 ms later; the
dismissal callback clears and hides the warning unconditionally; and in the
concrete overlap scenario a warning shown at time 0 and another at time
3000 leave timers due at 5000 and 8000, so the first timer, firing at time
5000, clears the second warning 3000 ms before its own dismissal is due. -/
theorem c8_warning_timers :
    (∀ s : ControllerState,
      (showWarning s).view.warningHTML = "Unaccepted file type." ∧
      (showWarning s).view.warningDisplay = "block" ∧
      (showWarning s).pendingDismissals =
        s.pendingDismissals ++ [s.now + 5000] ∧
      (showWarning s).value = s.value) ∧
    (∀ s : ControllerState,
      (dismissWarning s).view.warningHTML = "" ∧
      (dismissWarning s).view.warningDisplay = "none") ∧
    (c8s2.view.warningHTML = "Unaccepted file type." ∧
      c8s2.pendingDismissals = [5000, 8000] ∧
      c8s3.now = 5000 ∧ c8s3.now < 8000 ∧
      c8s3.view.warningHTML = "" ∧ c8s3.view.warningDisplay = "none") :=
  ⟨fun _ => ⟨rfl, rfl, rfl, rfl⟩, fun _ => ⟨rfl, rfl⟩, by decide⟩

/-- C10: with a null value, `handleValueChange` raises the DOM
`NotFoundError` exactly when the text element is not currently a child of
the container (the null branch calls removeChild unguarded), and from any
state where it is a child, one successful null notification followed by a
second one raises the exception. -/
theorem c10_null_removeChild (s : ControllerState) (h : s.value = none) :
    (handleValueChange s = Except.error DomError.notFoundErr ↔
      s.view.textInContainer = false) ∧
    (s.view.textInContainer = true →
      ∃ s', handleValueChange s = Except.ok s' ∧
        handleValueChange s' = Except.error DomError.notFoundErr) := by
  refine ⟨?_, ?_⟩
  · cases htc : s.view.textInContainer <;>
      simp [handleValueChange, h, htc]
  · intro htc
    refine ⟨{ s with view := { s.view with
        textContent := ""
        iconInContainer := true
        textInContainer := false
        warningHTML := ""
        warningDisplay := "none"
        deleteDisplay := "none"
        containerBorder := "1px dashed #717070" } }, ?_, ?_⟩
    · simp [handleValueChange, h, htc]
    · simp [handleValueChange, h]

/-- C10 witness: from the baseline state (text element not a child) the
null notification raises, and from the state with the text element a child
two consecutive null notifications raise on the second. -/
theorem c10_null_removeChild_witness :
    (initState.value = none ∧
      (handleValueChange initState = Except.error DomError.notFoundErr ↔
        initState.view.textInContainer = false)) ∧
    (c10b.value = none ∧ c10b.view.textInContainer = true ∧
      ∃ s', handleValueChange c10b = Except.ok s' ∧
        handleValueChange s' = Except.error DomError.notFoundErr) :=
  ⟨⟨rfl, (c10_null_removeChild initState rfl).1⟩,
   ⟨rfl, rfl, (c10_null_removeChild c10b rfl).2 rfl⟩⟩

/-- C9: when the filetypes allow-list is absent or empty, every file is
accepted, whatever its name. -/
theorem c9_empty_allowlist_accepts (lc : Nat) (f : File) :
    isFileValid ⟨lc, none⟩ f = true ∧ isFileValid ⟨lc, some []⟩ f = true := by
  constructor <;> simp [isFileValid]

end TweakpaneFileImport
